import Mathlib

/-!
Shallow embedding of the go-vies VAT-validation client (package vies).

The Go sources embedded here are vies.go (Validator, NewValidator, Valid,
Check, doError, doJSON) and the domain-model file (CheckResult, Status,
Availability with its UnmarshalJSON/MarshalJSON methods, statusErrorResponse,
checkRequest).

External collaborators of the Go code (the net/http transport, net/url
parsing and encoding/json byte-level parsing) are not part of the repository;
they appear here as abstract parameters: a decode step is represented by the
Except-valued result the json library hands back, the transport by a function
from the outgoing request to a TransportOutcome, and url.Parse by a
caller-supplied parse function.  Go error values are modelled by the
ViesError inductive; a Go (value, error) pair where the error may be nil is
modelled by Except or by an explicit Option.  Check additionally returns the
list of requests it handed to the transport, so that "no network call is
made" is the statement that this list is empty.
-/

/-- Go: ViesEndpointUrl constant of vies.go. -/
def ViesEndpointUrl : String := "https://ec.europa.eu/taxation_customs/vies/rest-api/"

/-- Go: ViesCheckStatusPath constant of vies.go. -/
def ViesCheckStatusPath : String := "check-status"

/-- Go: ViesCheckVatPath constant of vies.go. -/
def ViesCheckVatPath : String := "check-vat-number"

/-- Go: type ValidationError struct { Err, Message string }. -/
structure ValidationError where
  Err : String
  Message : String
  deriving Repr, DecidableEq

/-- Go: func (e *ValidationError) Error() string, i.e.
fmt.Sprintf("%v: %v", e.Err, e.Message). -/
def ValidationError.errorString (e : ValidationError) : String :=
  e.Err ++ ": " ++ e.Message

/-- The error values the embedded functions can produce, one constructor per
way the Go code builds an error: an error propagated from json.Unmarshal, a
*ValidationError, a fmt.Errorf-style generic error, and an error propagated
from the http transport (client.Do / request building / body reading). -/
inductive ViesError where
  | jsonError (msg : String)
  | validation (e : ValidationError)
  | errorf (msg : String)
  | transportFailure (msg : String)
  deriving Repr, DecidableEq

/-- The message a caller sees from err.Error() for each ViesError. -/
def ViesError.errorString : ViesError → String
  | .jsonError msg => msg
  | .validation e => e.errorString
  | .errorf msg => msg
  | .transportFailure msg => msg

/-- Whether errors.As(err, &ValidationError) would succeed: only the
validation constructor is a *ValidationError. -/
def ViesError.isValidationError : ViesError → Bool
  | .validation _ => true
  | _ => false

/-- Go: type CheckResult struct (countryCode, vatNumber, vat, valid, name). -/
structure CheckResult where
  CountryCode : String
  VatNumber : String
  Vat : String
  Valid : Bool
  Name : String
  deriving Repr, DecidableEq

/-- Go: type StatusVow struct { Available bool }. -/
structure StatusVow where
  Available : Bool
  deriving Repr, DecidableEq

/-- Go: type Availability string. -/
abbrev Availability := String

/-- Go: AvailabilityAvailable constant. -/
def AvailabilityAvailable : Availability := "available"

/-- Go: AvailabilityUnavailable constant. -/
def AvailabilityUnavailable : Availability := "unavailable"

/-- Go: AvailabilityMonitoringDisabled constant. -/
def AvailabilityMonitoringDisabled : Availability := "monitoring disabled"

/-- Go: strings.ToLower, mapped over the characters (the values this client
handles are ASCII, where Char.toLower agrees with Go's unicode lowering). -/
def stringToLower (s : String) : String := ⟨s.data.map Char.toLower⟩

/-- Go: strings.ToUpper, mapped over the characters. -/
def stringToUpper (s : String) : String := ⟨s.data.map Char.toUpper⟩

/-- Go: func (a *Availability) UnmarshalJSON(data []byte) error.
The leading json.Unmarshal(data, &value) into a plain string is library
code; its result is the input here (.error for a body that is not a JSON
string, .ok value otherwise).  The rest mirrors the method body: lower-case
the value, accept exactly the three canonical constants, store the lowered
value, otherwise fail with the fmt.Errorf("invalid availability: %q") text. -/
def Availability.UnmarshalJSON (decoded : Except String String) :
    Except String Availability :=
  match decoded with
  | .error e => .error e
  | .ok value =>
    let v := stringToLower value
    if v = AvailabilityAvailable ∨ v = AvailabilityUnavailable ∨
        v = AvailabilityMonitoringDisabled then
      .ok v
    else
      .error ("invalid availability: \"" ++ v ++ "\"")

/-- Go: func (a Availability) MarshalJSON() ([]byte, error).  The final
json.Marshal(string(a)) only quotes the string; the model returns the string
content itself. -/
def Availability.MarshalJSON (a : Availability) : Except String String :=
  if a = AvailabilityAvailable ∨ a = AvailabilityUnavailable ∨
      a = AvailabilityMonitoringDisabled then
    .ok a
  else
    .error ("invalid availability: \"" ++ a ++ "\"")

/-- Go: type CountryStatus struct. -/
structure CountryStatus where
  CountryCode : String
  Availability : Availability
  deriving Repr, DecidableEq

/-- Go: type Status struct { Vow StatusVow; Countries []CountryStatus }. -/
structure Status where
  Vow : StatusVow
  Countries : List CountryStatus
  deriving Repr, DecidableEq

/-- Go: type statusErrorWrapper struct { Error, Message string }. -/
structure statusErrorWrapper where
  error : String
  message : String
  deriving Repr, DecidableEq

/-- Go: type statusErrorResponse struct { ActionSucceed bool;
ErrorWrappers []statusErrorWrapper }. -/
structure statusErrorResponse where
  actionSucceed : Bool
  errorWrappers : List statusErrorWrapper
  deriving Repr, DecidableEq

/-- Go: type checkRequest struct { CountryCode, VatNumber string }. -/
structure checkRequest where
  CountryCode : String
  VatNumber : String
  deriving Repr, DecidableEq

/-- Go: func (v *Validator) doError(body *[]byte) error.  The call
json.Unmarshal(*body, &e) is library code; its result is the input
(.error err when the envelope fails to decode, .ok e otherwise).  The method
then returns that decode error unchanged, or a *ValidationError from the
first error wrapper when len(e.ErrorWrappers) > 0, or
fmt.Errorf("invalid response structure").  Every path returns a non-nil
error, so the model is total into ViesError. -/
def doError (decodedEnvelope : Except String statusErrorResponse) : ViesError :=
  match decodedEnvelope with
  | .error err => .jsonError err
  | .ok e =>
    match e.errorWrappers with
    | err :: _ => .validation ⟨err.error, err.message⟩
    | [] => .errorf "invalid response structure"

/-- What the transport hands back for one round trip: either a failure from
request building / client.Do / io.ReadAll, or an HTTP status code together
with the (already fully read) response body, of abstract type β. -/
inductive TransportOutcome (β : Type) where
  | failure (msg : String)
  | response (statusCode : Nat) (body : β)

/-- Go: func (v *Validator) doJSON(...) error, from the client.Do call
onwards (request-body marshalling of the concrete checkRequest record, a
struct of plain strings, cannot fail and carries no observable state here).
decodeOut models json.Unmarshal(rspBody, out) for the 200 path and
decodeErrEnv models the json.Unmarshal inside doError for the non-200 path;
both map the raw body β to the result the json library produces. -/
def doJSON {α β : Type} (decodeOut : β → Except String α)
    (decodeErrEnv : β → Except String statusErrorResponse)
    (outcome : TransportOutcome β) : Except ViesError α :=
  match outcome with
  | .failure msg => .error (.transportFailure msg)
  | .response statusCode body =>
    if statusCode = 200 then
      match decodeOut body with
      | .error err => .error (.jsonError err)
      | .ok out => .ok out
    else
      .error (doError (decodeErrEnv body))

/-- Go: func (v *Validator) Check(ctx, vat) (*CheckResult, error).  The
transport (v.client plus the joined endpoint URL) is the respond parameter,
mapping the outgoing request body to a TransportOutcome.  In addition to the
Go return value the model returns the list of request bodies handed to the
transport, so issuing no network call is returning the empty list. -/
def Check {β : Type} (decodeOut : β → Except String CheckResult)
    (decodeErrEnv : β → Except String statusErrorResponse)
    (respond : checkRequest → TransportOutcome β)
    (vat : String) : Except ViesError CheckResult × List checkRequest :=
  if vat.length < 2 then
    (.error (.errorf ("invalid VAT provided " ++ vat)), [])
  else
    let reqBody : checkRequest := ⟨stringToUpper (vat.take 2), vat.drop 2⟩
    match doJSON decodeOut decodeErrEnv (respond reqBody) with
    | .error err => (.error err, [reqBody])
    | .ok status =>
      (.ok { status with Vat := status.CountryCode ++ status.VatNumber },
        [reqBody])

/-- Go: func (v *Validator) Valid(ctx, vat) (bool, error).  The Go pair
(bool, error) with a possibly-nil error is the pair Bool × Option ViesError. -/
def Valid {β : Type} (decodeOut : β → Except String CheckResult)
    (decodeErrEnv : β → Except String statusErrorResponse)
    (respond : checkRequest → TransportOutcome β)
    (vat : String) : Bool × Option ViesError :=
  match (Check decodeOut decodeErrEnv respond vat).fst with
  | .error err => (false, some err)
  | .ok result => (result.Valid, none)

/-- Go: type Validator struct { endpoint *url.URL; client *http.Client },
with the URL and client types abstract. -/
structure Validator (υ κ : Type) where
  endpoint : υ
  client : κ

/-- Go: func NewValidator(client *http.Client, endpoint string).  url.Parse
is library code and appears as the parse parameter; http.DefaultClient is the
defaultClient parameter and a nil *http.Client argument is none. -/
def NewValidator {υ κ : Type} (parse : String → Except String υ)
    (defaultClient : κ) (client : Option κ) (endpoint : String) :
    Except String (Validator υ κ) :=
  let ep := if endpoint = "" then ViesEndpointUrl else endpoint
  match parse ep with
  | .error err => .error err
  | .ok u => .ok ⟨u, client.getD defaultClient⟩

/-- C1: for every non-200 HTTP response the shared execution path (doJSON)
returns the classification doError makes of the decoded error envelope, and
doError classifies into exactly one of three errors: a ValidationError
rendered as "code: message" built from the first error-wrapper entry when at
least one entry is present, the decode failure itself when the envelope does
not decode, and a generic shape error when the envelope decodes with zero
entries; only the first of the three is a ValidationError. -/
theorem doError_three_way_classification
    {α β : Type} (decodeOut : β → Except String α)
    (decodeErrEnv : β → Except String statusErrorResponse)
    (statusCode : Nat) (body : β) (hcode : statusCode ≠ 200)
    (msg : String) (envEmpty envFull : statusErrorResponse)
    (w : statusErrorWrapper) (ws : List statusErrorWrapper)
    (hEmpty : envEmpty.errorWrappers = [])
    (hFull : envFull.errorWrappers = w :: ws) :
    doJSON decodeOut decodeErrEnv (.response statusCode body)
        = .error (doError (decodeErrEnv body))
      ∧ doError (.ok envFull) = .validation ⟨w.error, w.message⟩
      ∧ (doError (.ok envFull)).errorString = w.error ++ ": " ++ w.message
      ∧ (doError (.ok envFull)).isValidationError = true
      ∧ doError (.error msg) = .jsonError msg
      ∧ (doError (.error msg)).isValidationError = false
      ∧ doError (.ok envEmpty) = .errorf "invalid response structure"
      ∧ (doError (.ok envEmpty)).isValidationError = false := by
  refine ⟨?_, ?_, ?_, ?_, ?_, ?_, ?_, ?_⟩ <;>
    simp [doJSON, doError, hcode, hEmpty, hFull, ViesError.errorString,
      ValidationError.errorString, ViesError.isValidationError]

/-- Witness for C1 at a concrete non-200 outcome and concrete envelopes. -/
theorem doError_three_way_classification_witness :
    doError (.ok ⟨false, [⟨"err", "msg"⟩]⟩) = .validation ⟨"err", "msg"⟩
      ∧ (doError (.ok ⟨false, [⟨"err", "msg"⟩]⟩)).errorString = "err: msg"
      ∧ doError (.error "boom") = .jsonError "boom"
      ∧ doError (.ok ⟨true, []⟩) = .errorf "invalid response structure" := by
  have h := doError_three_way_classification
    (fun _ : Unit => (Except.error "x" : Except String Nat))
    (fun _ : Unit => Except.ok ⟨false, [⟨"err", "msg"⟩]⟩)
    400 () (by decide) "boom" ⟨true, []⟩ ⟨false, [⟨"err", "msg"⟩]⟩
    ⟨"err", "msg"⟩ [] rfl rfl
  exact ⟨h.2.1, h.2.2.1, h.2.2.2.2.1, h.2.2.2.2.2.2.1⟩

/-- C2: for every input of length below two, Check fails at once with the
format error naming the offending input, and the list of requests handed to
the transport is empty (no network call), whatever the transport would
answer. -/
theorem Check_short_input_no_network {β : Type}
    (decodeOut : β → Except String CheckResult)
    (decodeErrEnv : β → Except String statusErrorResponse)
    (respond : checkRequest → TransportOutcome β)
    (vat : String) (hshort : vat.length < 2) :
    Check decodeOut decodeErrEnv respond vat
      = (.error (.errorf ("invalid VAT provided " ++ vat)), []) := by
  simp [Check, hshort]

/-- Witness for C2 at the one-character input "E". -/
theorem Check_short_input_no_network_witness :
    Check (fun _ : Unit => (Except.error "x" : Except String CheckResult))
        (fun _ : Unit => Except.error "x")
        (fun _ => .failure "never called") "E"
      = (.error (.errorf "invalid VAT provided E"), []) :=
  Check_short_input_no_network _ _ _ "E" (by decide)

/-- C3: for every input of length at least two, Check hands the transport
exactly one request, whose countryCode is the upper-cased two-character
prefix of the input and whose vatNumber is the remainder of the input,
unchanged. -/
theorem Check_request_body_shape {β : Type}
    (decodeOut : β → Except String CheckResult)
    (decodeErrEnv : β → Except String statusErrorResponse)
    (respond : checkRequest → TransportOutcome β)
    (vat : String) (hlen : 2 ≤ vat.length) :
    (Check decodeOut decodeErrEnv respond vat).snd
      = [⟨stringToUpper (vat.take 2), vat.drop 2⟩] := by
  have h : ¬ vat.length < 2 := by omega
  simp only [Check, h, if_false]
  cases doJSON decodeOut decodeErrEnv
      (respond ⟨stringToUpper (vat.take 2), vat.drop 2⟩) <;> rfl

/-- Witness for C3 at the lower-case input "ee123": the transmitted request
is countryCode "EE" (upper-cased), vatNumber "123". -/
theorem Check_request_body_shape_witness :
    (Check (fun _ : Unit => (Except.error "x" : Except String CheckResult))
        (fun _ : Unit => Except.error "x")
        (fun _ => .failure "down") "ee123").snd
      = [⟨"EE", "123"⟩] :=
  Check_request_body_shape _ _ _ "ee123" (by decide)

/-- C10: the error handler doError yields an error value for every decoded
body, and on any non-200 status the shared execution path returns exactly
that error and never success, so the caller's output value is never
populated from a non-200 response. -/
theorem doJSON_non200_never_ok {α β : Type}
    (decodeOut : β → Except String α)
    (decodeErrEnv : β → Except String statusErrorResponse)
    (statusCode : Nat) (body : β) (hcode : statusCode ≠ 200) :
    doJSON decodeOut decodeErrEnv (.response statusCode body)
        = .error (doError (decodeErrEnv body))
      ∧ (doJSON decodeOut decodeErrEnv (.response statusCode body)).isOk
          = false := by
  constructor <;> simp [doJSON, hcode, Except.isOk, Except.toBool]

/-- Witness for C10 at status 500 with a body whose envelope decodes to zero
entries. -/
theorem doJSON_non200_never_ok_witness :
    doJSON (fun _ : Unit => (Except.error "x" : Except String CheckResult))
        (fun _ : Unit => Except.ok ⟨true, []⟩) (.response 500 ())
        = .error (.errorf "invalid response structure")
      ∧ (doJSON (fun _ : Unit => (Except.error "x" : Except String CheckResult))
          (fun _ : Unit => Except.ok ⟨true, []⟩)
          (.response 500 ())).isOk = false :=
  doJSON_non200_never_ok _ _ 500 () (by decide)

/-- C4: on every successful (200, decodable) response, the vat field of the
CheckResult that Check returns is the concatenation of the response's
countryCode and vatNumber fields (the other fields are the response's own),
not the caller's raw input string. -/
theorem Check_vat_from_response {β : Type}
    (decodeOut : β → Except String CheckResult)
    (decodeErrEnv : β → Except String statusErrorResponse)
    (respond : checkRequest → TransportOutcome β)
    (vat : String) (body : β) (resp : CheckResult)
    (hlen : 2 ≤ vat.length)
    (hresp : respond ⟨stringToUpper (vat.take 2), vat.drop 2⟩
        = .response 200 body)
    (hdec : decodeOut body = .ok resp) :
    (Check decodeOut decodeErrEnv respond vat).fst
      = .ok { resp with Vat := resp.CountryCode ++ resp.VatNumber } := by
  have h : ¬ vat.length < 2 := by omega
  simp [Check, h, hresp, doJSON, hdec]

/-- Witness for C4: input "ee123", but the stubbed service answers with
countryCode "XX" and vatNumber "999", so the returned vat is "XX999", built
from the response and different from the raw input. -/
theorem Check_vat_from_response_witness :
    (Check (fun _ : Unit => Except.ok ⟨"XX", "999", "", true, "Acme"⟩)
        (fun _ : Unit => Except.error "x")
        (fun _ => .response 200 ()) "ee123").fst
      = .ok ⟨"XX", "999", "XX999", true, "Acme"⟩ :=
  Check_vat_from_response _ _ _ "ee123" () ⟨"XX", "999", "", true, "Acme"⟩
    (by decide) rfl rfl

/-- C5: constructing a Validator from the empty endpoint string behaves
exactly as constructing it from the hardcoded default base URL (the default
is substituted), and for every non-empty endpoint the URL parser rejects,
construction fails with that parse error and returns no Validator. -/
theorem NewValidator_default_and_parse_error {υ κ : Type}
    (parse : String → Except String υ) (defaultClient : κ) (client : Option κ)
    (endpoint : String) (err : String)
    (hne : endpoint ≠ "") (hperr : parse endpoint = .error err) :
    NewValidator parse defaultClient client ""
        = NewValidator parse defaultClient client ViesEndpointUrl
      ∧ NewValidator parse defaultClient client endpoint = .error err := by
  have hvies : ViesEndpointUrl ≠ "" := by decide
  constructor
  · simp [NewValidator, hvies]
  · simp [NewValidator, hne, hperr]

/-- Witness for C5 with a concrete parser that rejects "http://[::1" (the
malformed endpoint of the repository's own test) and accepts anything else. -/
theorem NewValidator_default_and_parse_error_witness :
    (NewValidator
        (fun s => if s = "http://[::1" then (Except.error "parse error" : Except String String)
          else Except.ok s) () none ""
      = NewValidator
        (fun s => if s = "http://[::1" then (Except.error "parse error" : Except String String)
          else Except.ok s) () none ViesEndpointUrl)
      ∧ NewValidator
        (fun s => if s = "http://[::1" then (Except.error "parse error" : Except String String)
          else Except.ok s) () none "http://[::1"
      = .error "parse error" :=
  NewValidator_default_and_parse_error _ () none "http://[::1" "parse error"
    (by decide) (by simp)

/-- C8: whenever the underlying Check fails, Valid returns false together
with that same error unchanged; whenever Check succeeds, Valid returns the
result's validity flag with no error; and on every input Valid never returns
true alongside a non-nil error (the boolean conjunction of the returned flag
and the presence of an error is always false). -/
theorem Valid_propagates_check {β : Type}
    (decodeOut : β → Except String CheckResult)
    (decodeErrEnv : β → Except String statusErrorResponse)
    (respondA respondB respondC : checkRequest → TransportOutcome β)
    (vatA vatB vatC : String) (err : ViesError) (result : CheckResult)
    (hA : (Check decodeOut decodeErrEnv respondA vatA).fst = .error err)
    (hB : (Check decodeOut decodeErrEnv respondB vatB).fst = .ok result) :
    Valid decodeOut decodeErrEnv respondA vatA = (false, some err)
      ∧ Valid decodeOut decodeErrEnv respondB vatB = (result.Valid, none)
      ∧ ((Valid decodeOut decodeErrEnv respondC vatC).fst
          && ((Valid decodeOut decodeErrEnv respondC vatC).snd).isSome)
        = false := by
  refine ⟨?_, ?_, ?_⟩
  · simp [Valid, hA]
  · simp [Valid, hB]
  · unfold Valid
    cases (Check decodeOut decodeErrEnv respondC vatC).fst <;> simp

/-- Witness for C8: the short input "E" makes Check fail and Valid propagate
that error with false; the stubbed valid answer on "EE123" makes Valid
return the flag true with no error; and flag-and-error is false there. -/
theorem Valid_propagates_check_witness :
    Valid (fun _ : Unit => Except.ok ⟨"EE", "123", "", true, "Acme"⟩)
        (fun _ : Unit => Except.error "x")
        (fun _ => .failure "never called") "E"
      = (false, some (.errorf "invalid VAT provided E"))
      ∧ Valid (fun _ : Unit => Except.ok ⟨"EE", "123", "", true, "Acme"⟩)
        (fun _ : Unit => Except.error "x")
        (fun _ => .response 200 ()) "EE123"
      = (true, none)
      ∧ ((Valid (fun _ : Unit => Except.ok ⟨"EE", "123", "", true, "Acme"⟩)
          (fun _ : Unit => Except.error "x")
          (fun _ => .response 200 ()) "EE123").fst
        && ((Valid (fun _ : Unit => Except.ok ⟨"EE", "123", "", true, "Acme"⟩)
          (fun _ : Unit => Except.error "x")
          (fun _ => .response 200 ()) "EE123").snd).isSome) = false :=
  Valid_propagates_check _ _
    (fun _ => .failure "never called") (fun _ => .response 200 ())
    (fun _ => .response 200 ()) "E" "EE123" "EE123"
    (.errorf "invalid VAT provided E") ⟨"EE", "123", "EE123", true, "Acme"⟩
    rfl rfl

/-- C6: decoding a JSON string into an Availability succeeds exactly when
the text lowercases to one of the three canonical values (case-insensitive
match), and any two casings with the same lowering decode to the same
result; every other text fails. -/
theorem Availability_decode_case_insensitive (s t : String)
    (hcase : stringToLower s = stringToLower t) :
    ((Availability.UnmarshalJSON (.ok s)).isOk = true ↔
        (stringToLower s = AvailabilityAvailable ∨
         stringToLower s = AvailabilityUnavailable ∨
         stringToLower s = AvailabilityMonitoringDisabled))
      ∧ Availability.UnmarshalJSON (.ok s)
          = Availability.UnmarshalJSON (.ok t) := by
  constructor
  · by_cases h : (stringToLower s = AvailabilityAvailable ∨
        stringToLower s = AvailabilityUnavailable ∨
        stringToLower s = AvailabilityMonitoringDisabled)
    · simp [Availability.UnmarshalJSON, h, Except.isOk, Except.toBool]
    · simp [Availability.UnmarshalJSON, h, Except.isOk, Except.toBool]
  · simp [Availability.UnmarshalJSON, hcase]

/-- Witness for C6: "Available" decodes, "AVAILABLE" decodes to the same
value, and "bogus" does not decode. -/
theorem Availability_decode_case_insensitive_witness :
    (Availability.UnmarshalJSON (.ok "Available")).isOk = true
      ∧ Availability.UnmarshalJSON (.ok "Available")
          = Availability.UnmarshalJSON (.ok "AVAILABLE")
      ∧ (Availability.UnmarshalJSON (.ok "bogus")).isOk = false := by
  have h := Availability_decode_case_insensitive "Available" "AVAILABLE"
    (by decide)
  exact ⟨h.1.mpr (Or.inl (by decide)), h.2, by decide⟩

/-- C7: each of the three canonical Availability values encodes
successfully and decoding the encoded text yields the original value
(round-trip identity); every in-memory value outside the canonical set
fails to encode. -/
theorem Availability_marshal_roundtrip (a : Availability)
    (h1 : a ≠ AvailabilityAvailable) (h2 : a ≠ AvailabilityUnavailable)
    (h3 : a ≠ AvailabilityMonitoringDisabled) :
    (Availability.MarshalJSON AvailabilityAvailable
          = .ok AvailabilityAvailable
        ∧ Availability.UnmarshalJSON (.ok AvailabilityAvailable)
          = .ok AvailabilityAvailable)
      ∧ (Availability.MarshalJSON AvailabilityUnavailable
          = .ok AvailabilityUnavailable
        ∧ Availability.UnmarshalJSON (.ok AvailabilityUnavailable)
          = .ok AvailabilityUnavailable)
      ∧ (Availability.MarshalJSON AvailabilityMonitoringDisabled
          = .ok AvailabilityMonitoringDisabled
        ∧ Availability.UnmarshalJSON (.ok AvailabilityMonitoringDisabled)
          = .ok AvailabilityMonitoringDisabled)
      ∧ Availability.MarshalJSON a
          = .error ("invalid availability: \"" ++ a ++ "\"") := by
  refine ⟨⟨rfl, rfl⟩, ⟨rfl, rfl⟩, ⟨rfl, rfl⟩, ?_⟩
  simp [Availability.MarshalJSON, h1, h2, h3]

/-- Witness for C7 at the non-canonical in-memory value "bogus". -/
theorem Availability_marshal_roundtrip_witness :
    Availability.UnmarshalJSON (.ok AvailabilityAvailable)
        = .ok AvailabilityAvailable
      ∧ Availability.MarshalJSON "bogus"
        = .error "invalid availability: \"bogus\"" := by
  have h := Availability_marshal_roundtrip "bogus" (by decide) (by decide)
    (by decide)
  exact ⟨h.1.2, h.2.2.2⟩

/-- C9: every successfully decoded Availability is the lowercase of the
input and lies in the canonical three-value set, so re-encoding it succeeds
and emits exactly that lowercase canonical text. -/
theorem Availability_decoded_reencodes_lowercase (s : String)
    (a : Availability)
    (h : Availability.UnmarshalJSON (.ok s) = .ok a) :
    (a = AvailabilityAvailable ∨ a = AvailabilityUnavailable ∨
        a = AvailabilityMonitoringDisabled)
      ∧ a = stringToLower s
      ∧ Availability.MarshalJSON a = .ok a := by
  by_cases hc : (stringToLower s = AvailabilityAvailable ∨
      stringToLower s = AvailabilityUnavailable ∨
      stringToLower s = AvailabilityMonitoringDisabled)
  · simp only [Availability.UnmarshalJSON, if_pos hc, Except.ok.injEq] at h
    subst h
    exact ⟨hc, rfl, by simp [Availability.MarshalJSON, hc]⟩
  · simp only [Availability.UnmarshalJSON, if_neg hc] at h
    exact Except.noConfusion h

/-- Witness for C9: "Monitoring Disabled" decodes to the lowercase
canonical value, which re-encodes to itself. -/
theorem Availability_decoded_reencodes_lowercase_witness :
    (AvailabilityMonitoringDisabled = AvailabilityAvailable
        ∨ AvailabilityMonitoringDisabled = AvailabilityUnavailable
        ∨ AvailabilityMonitoringDisabled = AvailabilityMonitoringDisabled)
      ∧ AvailabilityMonitoringDisabled = stringToLower "Monitoring Disabled"
      ∧ Availability.MarshalJSON AvailabilityMonitoringDisabled
          = .ok AvailabilityMonitoringDisabled :=
  Availability_decoded_reencodes_lowercase "Monitoring Disabled"
    AvailabilityMonitoringDisabled rfl
